import Mathlib

/-!
Shallow embedding of `src/app.py`, a Flask CRUD backend for a contacts
table. The four route handlers (`add_contact`, `get_contacts`,
`delete_contact`, `update_contact`) are translated as pure functions from
a request plus a store state to an HTTP response plus a new store state.
JSON request bodies are modelled by `JValue`; the Python truthiness test
`if not name or not phone` is modelled by `truthy`. Primary-key id
assignment is performed by the database layer (not in the repository
source); following the spec ("assigns a new unique id", "id is unique and
immutable after creation") it is modelled by a monotone counter `nextId`.
-/

/-- A JSON value, as decoded from a request body by the HTTP layer. -/
inductive JValue where
  | null : JValue
  | bool : Bool → JValue
  | num : Int → JValue
  | str : String → JValue
  | arr : List JValue → JValue
  | obj : List (String × JValue) → JValue

/-- Python truthiness of a JSON value, as used by the source's
`if not name or not phone` checks: `None`, `False`, `0`, `""`, `[]` and
an empty dict are falsy, everything else is truthy. -/
def truthy : JValue → Bool
  | .null => false
  | .bool b => b
  | .num n => n != 0
  | .str s => s != ""
  | .arr xs => !xs.isEmpty
  | .obj kvs => !kvs.isEmpty

/-- The field lookup `data.get(key)` of the source: the value bound to the
first occurrence of the key in the JSON object, or Python `None`
(modelled as `JValue.null`) when the key is absent. -/
def jget (kvs : List (String × JValue)) (k : String) : JValue :=
  match kvs.find? (fun kv => kv.1 == k) with
  | some kv => kv.2
  | none => .null

/-- The `Contact` model of `src/app.py` lines 23-26: an integer primary
key `id` plus `name` and `phone` columns. The columns hold whatever value
the handler stored (SQLite does not enforce the string type), so they are
modelled as `JValue`. -/
structure Contact where
  id : Nat
  name : JValue
  phone : JValue

/-- `Contact.to_dict` of `src/app.py` lines 29-34. -/
def Contact.to_dict (c : Contact) : JValue :=
  .obj [("id", .num (Int.ofNat c.id)), ("name", c.name), ("phone", c.phone)]

/-- An HTTP response: status code and JSON body (the empty-string body of
a 204 response is `JValue.str ""`). -/
structure HttpResponse where
  status : Nat
  body : JValue

/-- The persisted contacts table plus the database's autoincrement
counter. Modelled from the spec: the primary-key generator lives in the
database layer, and per the spec a fresh id is unique among all
previously assigned ids, so `nextId` only ever grows. -/
structure Store where
  rows : List Contact
  nextId : Nat

/-- The empty database created on first startup (`db.create_all()`);
SQLite assigns 1 as the first rowid. -/
def Store.init : Store := { rows := [], nextId := 1 }

/-- `Contact.query.get(contact_id)`: primary-key lookup, `None` when no
row has that id. -/
def Store.get? (s : Store) (cid : Nat) : Option Contact :=
  s.rows.find? (fun c => c.id == cid)

/-- The 400 / 404 error bodies `jsonify({'error': msg})`. -/
def errBody (msg : String) : JValue := .obj [("error", .str msg)]

/-- `add_contact` (`src/app.py` lines 43-66): POST /api/contacts.
Reads `name` and `phone` from the JSON body, returns 400 if either is
falsy, otherwise inserts a fresh row and returns it with status 201. -/
def add_contact (body : List (String × JValue)) (s : Store) :
    HttpResponse × Store :=
  let name := jget body "name"
  let phone := jget body "phone"
  if !truthy name || !truthy phone then
    ({ status := 400, body := errBody "Name and phone are required." }, s)
  else
    let new_contact : Contact := { id := s.nextId, name := name, phone := phone }
    ({ status := 201, body := new_contact.to_dict },
     { rows := s.rows ++ [new_contact], nextId := s.nextId + 1 })

/-- `get_contacts` (`src/app.py` lines 70-84): GET /api/contacts.
Returns every row, serialized by `to_dict`, with status 200; the store is
not written. -/
def get_contacts (s : Store) : HttpResponse × Store :=
  ({ status := 200, body := .arr (s.rows.map Contact.to_dict) }, s)

/-- `delete_contact` (`src/app.py` lines 90-108): DELETE
/api/contacts/<id>. 404 when the id is absent; otherwise the row with
that primary key is deleted and 204 with an empty body is returned. -/
def delete_contact (cid : Nat) (s : Store) : HttpResponse × Store :=
  match s.get? cid with
  | none => ({ status := 404, body := errBody "Contact not found." }, s)
  | some _ =>
    ({ status := 204, body := .str "" },
     { s with rows := s.rows.filter (fun c => c.id != cid) })

/-- `update_contact` (`src/app.py` lines 112-138): PUT
/api/contacts/<id>. 404 when the id is absent; 400 when `name` or
`phone` in the body is falsy; otherwise overwrites `name` and `phone` of
the row with that primary key in place and returns it with status 200. -/
def update_contact (cid : Nat) (body : List (String × JValue)) (s : Store) :
    HttpResponse × Store :=
  match s.get? cid with
  | none => ({ status := 404, body := errBody "Contact not found." }, s)
  | some c =>
    let name := jget body "name"
    let phone := jget body "phone"
    if !truthy name || !truthy phone then
      ({ status := 400, body := errBody "Name and phone are required." }, s)
    else
      let c2 : Contact := { c with name := name, phone := phone }
      ({ status := 200, body := c2.to_dict },
       { s with rows := s.rows.map (fun x => if x.id = cid then c2 else x) })

/-- One client request against the store: a step of the system. -/
inductive Step : Store → Store → Prop where
  | create (body : List (String × JValue)) (s : Store) :
      Step s (add_contact body s).2
  | list (s : Store) : Step s (get_contacts s).2
  | del (cid : Nat) (s : Store) : Step s (delete_contact cid s).2
  | upd (cid : Nat) (body : List (String × JValue)) (s : Store) :
      Step s (update_contact cid body s).2

/-- Store states reachable from the freshly created database by any
sequence of requests. -/
inductive Reachable : Store → Prop where
  | init : Reachable Store.init
  | step {s s' : Store} : Reachable s → Step s s' → Reachable s'

/-- The store invariant of the spec: ids are pairwise distinct, every
persisted `name` and `phone` is truthy (in particular non-empty), and
every id is below the autoincrement counter. -/
def StoreInv (s : Store) : Prop :=
  s.rows.Pairwise (fun a b => a.id ≠ b.id) ∧
  (∀ c ∈ s.rows, truthy c.name = true ∧ truthy c.phone = true) ∧
  (∀ c ∈ s.rows, c.id < s.nextId)

/-- A client request, one per route of `src/app.py`. -/
inductive Request where
  | post : List (String × JValue) → Request
  | getAll : Request
  | put : Nat → List (String × JValue) → Request
  | del : Nat → Request

/-- Dispatch of one request to its handler, as the HTTP layer does. -/
def execReq : Request → Store → HttpResponse × Store
  | .post body, s => add_contact body s
  | .getAll, s => get_contacts s
  | .put cid body, s => update_contact cid body s
  | .del cid, s => delete_contact cid s

/-- The ids assigned by the successful creates (201 responses) of a
request trace run from a given store state, in order. -/
def createdIds : Store → List Request → List Nat
  | _, [] => []
  | s, r :: rs =>
    let out := execReq r s
    if out.1.status = 201 then s.nextId :: createdIds out.2 rs
    else createdIds out.2 rs

/-- A sequence of create requests, collecting the responses. -/
def runCreates : List (String × String) → Store → List HttpResponse × Store
  | [], s => ([], s)
  | (nm, ph) :: rest, s =>
    let out := add_contact [("name", .str nm), ("phone", .str ph)] s
    let next := runCreates rest out.2
    (out.1 :: next.1, next.2)

/-- The records the spec predicts a batch of creates starting at counter
value `n` will persist: the i-th input's name and phone, with id `n + i`. -/
def expectedRows (n : Nat) : List (String × String) → List Contact
  | [] => []
  | (nm, ph) :: rest => ⟨n, .str nm, .str ph⟩ :: expectedRows (n + 1) rest

/-- A concrete two-row store used by witnesses. -/
def sampleStore : Store :=
  ⟨[⟨1, .str "Alice", .str "123"⟩, ⟨2, .str "Bob", .str "456"⟩], 3⟩

/-- A concrete request trace used by witnesses: create, delete, create. -/
def rs0 : List Request :=
  [.post [("name", .str "A"), ("phone", .str "1")], .del 1,
   .post [("name", .str "B"), ("phone", .str "2")]]

/-! Helper lemmas shared by the claim theorems. -/

lemma jget_name (nv pv : JValue) :
    jget [("name", nv), ("phone", pv)] "name" = nv := rfl

lemma jget_phone (nv pv : JValue) :
    jget [("name", nv), ("phone", pv)] "phone" = pv := rfl

lemma storeInv_init : StoreInv Store.init := by
  refine ⟨List.Pairwise.nil, ?_, ?_⟩ <;> intro c hc <;> simp [Store.init] at hc

lemma get?_eq_none_of (s : Store) (cid : Nat)
    (h : ∀ c ∈ s.rows, c.id ≠ cid) : s.get? cid = none := by
  unfold Store.get?
  apply List.find?_eq_none.mpr
  intro c hc
  simpa using h c hc

lemma get?_some (s : Store) (cid : Nat) (c : Contact)
    (h : s.get? cid = some c) : c ∈ s.rows ∧ c.id = cid := by
  unfold Store.get? at h
  exact ⟨List.mem_of_find?_eq_some h, by simpa using List.find?_some h⟩

/-- C10: ListAll (GET /api/contacts) is read-only: for every store state it
returns the unchanged store together with a 200 response carrying one
serialized `{id, name, phone}` object per persisted record. -/
theorem get_contacts_readonly (s : Store) :
    get_contacts s = (⟨200, .arr (s.rows.map Contact.to_dict)⟩, s) ∧
    (get_contacts s).2 = s ∧
    (s.rows.map Contact.to_dict).length = s.rows.length := by
  exact ⟨rfl, rfl, by simp⟩

/-- C2: a create request whose `name` or `phone` field is empty or absent
(absence surfacing as Python `None`) yields the 400 ValidationError
response and leaves the store exactly unchanged. -/
theorem add_contact_invalid_rejected (s : Store) (body : List (String × JValue))
    (h : jget body "name" = .null ∨ jget body "name" = .str "" ∨
         jget body "phone" = .null ∨ jget body "phone" = .str "") :
    add_contact body s = (⟨400, errBody "Name and phone are required."⟩, s) := by
  unfold add_contact
  rcases h with h | h | h | h <;> rw [h] <;> simp [truthy]

/-- Witness for C2 at a concrete input: a body missing the `name` key. -/
theorem add_contact_invalid_rejected_witness :
    add_contact [("phone", JValue.str "123")] Store.init =
      (⟨400, errBody "Name and phone are required."⟩, Store.init) :=
  add_contact_invalid_rejected Store.init [("phone", .str "123")] (Or.inl rfl)

/-- C4: Update on an id not present in the store returns the 404 NotFound
response, for every request body, and leaves the whole store unchanged. -/
theorem update_contact_absent_not_found (s : Store) (cid : Nat)
    (body : List (String × JValue)) (h : ∀ c ∈ s.rows, c.id ≠ cid) :
    update_contact cid body s = (⟨404, errBody "Contact not found."⟩, s) := by
  unfold update_contact
  rw [get?_eq_none_of s cid h]

/-- Witness for C4 at a concrete input: updating id 7 in the empty store. -/
theorem update_contact_absent_not_found_witness :
    update_contact 7 [("name", JValue.str "Bob"), ("phone", JValue.str "456")]
      Store.init = (⟨404, errBody "Contact not found."⟩, Store.init) :=
  update_contact_absent_not_found Store.init 7 _
    (by intro c hc; simp [Store.init] at hc)

lemma bool_eq_false {b : Bool} (h : ¬ b = true) : b = false := by
  cases b
  · rfl
  · exact absurd rfl h

lemma truthy_str_of_ne {s : String} (h : s ≠ "") : truthy (.str s) = true := by
  simp [truthy]
  exact h

/-! Branch-equation lemmas for the handlers. -/

lemma add_contact_invalid_eq (body : List (String × JValue)) (s : Store)
    (h : (!truthy (jget body "name") || !truthy (jget body "phone")) = true) :
    add_contact body s = (⟨400, errBody "Name and phone are required."⟩, s) := by
  unfold add_contact
  simp only [h]
  rfl

lemma add_contact_valid_eq (body : List (String × JValue)) (s : Store)
    (h : (!truthy (jget body "name") || !truthy (jget body "phone")) = false) :
    add_contact body s =
      (⟨201, Contact.to_dict ⟨s.nextId, jget body "name", jget body "phone"⟩⟩,
       ⟨s.rows ++ [⟨s.nextId, jget body "name", jget body "phone"⟩],
        s.nextId + 1⟩) := by
  unfold add_contact
  simp only [h]
  rfl

lemma update_contact_none_eq (cid : Nat) (body : List (String × JValue))
    (s : Store) (h : s.get? cid = none) :
    update_contact cid body s = (⟨404, errBody "Contact not found."⟩, s) := by
  unfold update_contact
  rw [h]

lemma update_contact_invalid_eq (cid : Nat) (body : List (String × JValue))
    (s : Store) (c : Contact) (hg : s.get? cid = some c)
    (h : (!truthy (jget body "name") || !truthy (jget body "phone")) = true) :
    update_contact cid body s =
      (⟨400, errBody "Name and phone are required."⟩, s) := by
  unfold update_contact
  rw [hg]
  simp only [h]
  rfl

lemma update_contact_valid_eq (cid : Nat) (body : List (String × JValue))
    (s : Store) (c : Contact) (hg : s.get? cid = some c)
    (h : (!truthy (jget body "name") || !truthy (jget body "phone")) = false) :
    update_contact cid body s =
      (⟨200, Contact.to_dict ⟨c.id, jget body "name", jget body "phone"⟩⟩,
       ⟨s.rows.map (fun x =>
          if x.id = cid then ⟨c.id, jget body "name", jget body "phone"⟩ else x),
        s.nextId⟩) := by
  unfold update_contact
  rw [hg]
  simp only [h]
  rfl

lemma delete_contact_none_eq (cid : Nat) (s : Store) (h : s.get? cid = none) :
    delete_contact cid s = (⟨404, errBody "Contact not found."⟩, s) := by
  unfold delete_contact
  rw [h]

lemma delete_contact_some_eq (cid : Nat) (s : Store) (c : Contact)
    (h : s.get? cid = some c) :
    delete_contact cid s =
      (⟨204, .str ""⟩, ⟨s.rows.filter (fun x => x.id != cid), s.nextId⟩) := by
  unfold delete_contact
  rw [h]

lemma add_contact_valid (s : Store) (sn sp : String) (hn : sn ≠ "") (hp : sp ≠ "") :
    add_contact [("name", .str sn), ("phone", .str sp)] s =
      (⟨201, Contact.to_dict ⟨s.nextId, .str sn, .str sp⟩⟩,
       ⟨s.rows ++ [⟨s.nextId, .str sn, .str sp⟩], s.nextId + 1⟩) := by
  have hcond :
      (!truthy (jget [("name", JValue.str sn), ("phone", JValue.str sp)] "name") ||
       !truthy (jget [("name", JValue.str sn), ("phone", JValue.str sp)] "phone"))
        = false := by
    rw [jget_name, jget_phone, truthy_str_of_ne hn, truthy_str_of_ne hp]
    rfl
  rw [add_contact_valid_eq _ _ hcond, jget_name, jget_phone]

lemma get?_isSome (s : Store) (cid : Nat) (c : Contact) (hc : c ∈ s.rows)
    (hid : c.id = cid) : ∃ c', s.get? cid = some c' := by
  unfold Store.get?
  have h : (s.rows.find? (fun c => c.id == cid)).isSome := by
    rw [List.find?_isSome]
    exact ⟨c, hc, by simpa using hid⟩
  exact Option.isSome_iff_exists.mp h

lemma execReq_nextId_le (r : Request) (s : Store) :
    s.nextId ≤ (execReq r s).2.nextId := by
  cases r with
  | post body =>
    simp only [execReq]
    by_cases hb : (!truthy (jget body "name") || !truthy (jget body "phone")) = true
    · rw [add_contact_invalid_eq body s hb]
    · rw [add_contact_valid_eq body s (bool_eq_false hb)]
      exact Nat.le_succ _
  | getAll => exact Nat.le_refl _
  | put cid body =>
    simp only [execReq]
    cases hg : s.get? cid with
    | none => rw [update_contact_none_eq cid body s hg]
    | some c =>
      by_cases hb : (!truthy (jget body "name") || !truthy (jget body "phone")) = true
      · rw [update_contact_invalid_eq cid body s c hg hb]
      · rw [update_contact_valid_eq cid body s c hg (bool_eq_false hb)]
  | del cid =>
    simp only [execReq]
    cases hg : s.get? cid with
    | none => rw [delete_contact_none_eq cid s hg]
    | some c => rw [delete_contact_some_eq cid s c hg]

lemma execReq_201 (r : Request) (s : Store)
    (h : (execReq r s).1.status = 201) :
    (execReq r s).2.nextId = s.nextId + 1 := by
  cases r with
  | post body =>
    simp only [execReq] at h ⊢
    by_cases hb : (!truthy (jget body "name") || !truthy (jget body "phone")) = true
    · rw [add_contact_invalid_eq body s hb] at h
      simp at h
    · rw [add_contact_valid_eq body s (bool_eq_false hb)]
  | getAll => simp [execReq, get_contacts] at h
  | put cid body =>
    simp only [execReq] at h ⊢
    cases hg : s.get? cid with
    | none =>
      rw [update_contact_none_eq cid body s hg] at h
      simp at h
    | some c =>
      by_cases hb : (!truthy (jget body "name") || !truthy (jget body "phone")) = true
      · rw [update_contact_invalid_eq cid body s c hg hb] at h
        simp at h
      · rw [update_contact_valid_eq cid body s c hg (bool_eq_false hb)] at h
        simp at h
  | del cid =>
    simp only [execReq] at h
    cases hg : s.get? cid with
    | none =>
      rw [delete_contact_none_eq cid s hg] at h
      simp at h
    | some c =>
      rw [delete_contact_some_eq cid s c hg] at h
      simp at h

lemma createdIds_lb (rs : List Request) (s : Store) :
    ∀ x ∈ createdIds s rs, s.nextId ≤ x := by
  induction rs generalizing s with
  | nil =>
    intro x hx
    simp [createdIds] at hx
  | cons r rest ih =>
    intro x hx
    simp only [createdIds] at hx
    by_cases hb : (execReq r s).1.status = 201
    · rw [if_pos hb] at hx
      rcases List.mem_cons.mp hx with h | h
      · omega
      · have h1 := ih (execReq r s).2 x h
        have h2 := execReq_nextId_le r s
        omega
    · rw [if_neg hb] at hx
      have h1 := ih (execReq r s).2 x hx
      have h2 := execReq_nextId_le r s
      omega

lemma createdIds_pairwise_lt (rs : List Request) (s : Store) :
    (createdIds s rs).Pairwise (· < ·) := by
  induction rs generalizing s with
  | nil => exact List.Pairwise.nil
  | cons r rest ih =>
    simp only [createdIds]
    by_cases hb : (execReq r s).1.status = 201
    · rw [if_pos hb]
      refine List.Pairwise.cons ?_ (ih (execReq r s).2)
      intro x hx
      have h1 := createdIds_lb rest (execReq r s).2 x hx
      have h2 := execReq_201 r s hb
      omega
    · rw [if_neg hb]
      exact ih (execReq r s).2

lemma expectedRows_length (n : Nat) (inputs : List (String × String)) :
    (expectedRows n inputs).length = inputs.length := by
  induction inputs generalizing n with
  | nil => rfl
  | cons p rest ih =>
    cases p
    simp [expectedRows, ih]

lemma runCreates_spec (inputs : List (String × String)) (s : Store)
    (h : ∀ p ∈ inputs, p.1 ≠ "" ∧ p.2 ≠ "") :
    runCreates inputs s =
      ((expectedRows s.nextId inputs).map (fun c => ⟨201, c.to_dict⟩),
       ⟨s.rows ++ expectedRows s.nextId inputs, s.nextId + inputs.length⟩) := by
  induction inputs generalizing s with
  | nil => simp [runCreates, expectedRows]
  | cons p rest ih =>
    obtain ⟨nm, ph⟩ := p
    obtain ⟨hn, hp⟩ := h (nm, ph) (List.mem_cons_self _ _)
    have hrest : ∀ q ∈ rest, q.1 ≠ "" ∧ q.2 ≠ "" :=
      fun q hq => h q (List.mem_cons_of_mem _ hq)
    simp only [runCreates]
    rw [add_contact_valid s nm ph hn hp]
    dsimp only
    rw [ih _ hrest]
    simp [expectedRows, List.append_assoc]
    omega

lemma truthy_pair_of_cond {body : List (String × JValue)}
    (hb : ¬ (!truthy (jget body "name") || !truthy (jget body "phone")) = true) :
    truthy (jget body "name") = true ∧ truthy (jget body "phone") = true := by
  have h := bool_eq_false hb
  cases ha : truthy (jget body "name") <;>
    cases hp : truthy (jget body "phone") <;>
      simp [ha, hp] at h ⊢

lemma storeInv_add (body : List (String × JValue)) (s : Store) (h : StoreInv s) :
    StoreInv (add_contact body s).2 := by
  by_cases hb : (!truthy (jget body "name") || !truthy (jget body "phone")) = true
  · rw [add_contact_invalid_eq body s hb]
    exact h
  · rw [add_contact_valid_eq body s (bool_eq_false hb)]
    obtain ⟨htn, htp⟩ := truthy_pair_of_cond hb
    obtain ⟨h1, h2, h3⟩ := h
    refine ⟨?_, ?_, ?_⟩
    · rw [List.pairwise_append]
      refine ⟨h1, List.pairwise_singleton _ _, ?_⟩
      intro a ha b hb'
      have hbeq : b = ⟨s.nextId, jget body "name", jget body "phone"⟩ := by
        simpa using hb'
      subst hbeq
      exact Nat.ne_of_lt (h3 a ha)
    · intro c hc
      rcases List.mem_append.mp hc with h' | h'
      · exact h2 c h'
      · have hceq : c = ⟨s.nextId, jget body "name", jget body "phone"⟩ := by
          simpa using h'
        subst hceq
        exact ⟨htn, htp⟩
    · intro c hc
      rcases List.mem_append.mp hc with h' | h'
      · have := h3 c h'
        show c.id < s.nextId + 1
        omega
      · have hceq : c = ⟨s.nextId, jget body "name", jget body "phone"⟩ := by
          simpa using h'
        subst hceq
        show s.nextId < s.nextId + 1
        omega

lemma storeInv_delete (cid : Nat) (s : Store) (h : StoreInv s) :
    StoreInv (delete_contact cid s).2 := by
  cases hg : s.get? cid with
  | none =>
    rw [delete_contact_none_eq cid s hg]
    exact h
  | some c =>
    rw [delete_contact_some_eq cid s c hg]
    obtain ⟨h1, h2, h3⟩ := h
    refine ⟨h1.sublist (List.filter_sublist _), ?_, ?_⟩
    · intro x hx
      exact h2 x (List.mem_filter.mp hx).1
    · intro x hx
      exact h3 x (List.mem_filter.mp hx).1

lemma storeInv_update (cid : Nat) (body : List (String × JValue)) (s : Store)
    (h : StoreInv s) : StoreInv (update_contact cid body s).2 := by
  cases hg : s.get? cid with
  | none =>
    rw [update_contact_none_eq cid body s hg]
    exact h
  | some c =>
    by_cases hb : (!truthy (jget body "name") || !truthy (jget body "phone")) = true
    · rw [update_contact_invalid_eq cid body s c hg hb]
      exact h
    · rw [update_contact_valid_eq cid body s c hg (bool_eq_false hb)]
      obtain ⟨htn, htp⟩ := truthy_pair_of_cond hb
      obtain ⟨h1, h2, h3⟩ := h
      have hid : c.id = cid := (get?_some s cid c hg).2
      have hfid : ∀ x : Contact,
          (if x.id = cid
            then (⟨c.id, jget body "name", jget body "phone"⟩ : Contact)
            else x).id = x.id := by
        intro x
        by_cases hx : x.id = cid
        · rw [if_pos hx]
          show c.id = x.id
          omega
        · rw [if_neg hx]
      refine ⟨?_, ?_, ?_⟩
      · refine List.Pairwise.map _ ?_ h1
        intro a b hab
        simp only [hfid]
        exact hab
      · intro x' hx'
        rcases List.mem_map.mp hx' with ⟨x, hx, rfl⟩
        by_cases hxc : x.id = cid
        · rw [if_pos hxc]
          exact ⟨htn, htp⟩
        · rw [if_neg hxc]
          exact h2 x hx
      · intro x' hx'
        rcases List.mem_map.mp hx' with ⟨x, hx, rfl⟩
        show (if x.id = cid
            then (⟨c.id, jget body "name", jget body "phone"⟩ : Contact)
            else x).id < s.nextId
        rw [hfid x]
        exact h3 x hx

lemma sampleStore_inv : StoreInv sampleStore := by
  refine ⟨?_, ?_, ?_⟩ <;> simp [sampleStore, truthy]

/-- C1: a create request with non-empty name and phone succeeds with 201,
returns the full record including the assigned id, persists exactly that
record, and the assigned id differs from the id of every record already in
the store; moreover the ids assigned by the successful creates of any
request trace are pairwise distinct. -/
theorem add_contact_valid_creates (s : Store) (rs : List Request)
    (sn sp : String) (hn : sn ≠ "") (hp : sp ≠ "") (hinv : StoreInv s) :
    add_contact [("name", JValue.str sn), ("phone", JValue.str sp)] s =
      (⟨201, Contact.to_dict ⟨s.nextId, .str sn, .str sp⟩⟩,
       ⟨s.rows ++ [⟨s.nextId, .str sn, .str sp⟩], s.nextId + 1⟩) ∧
    (∀ x ∈ s.rows, x.id ≠ s.nextId) ∧
    (createdIds s rs).Pairwise (· ≠ ·) := by
  refine ⟨add_contact_valid s sn sp hn hp, ?_, ?_⟩
  · intro x hx
    exact Nat.ne_of_lt (hinv.2.2 x hx)
  · exact (createdIds_pairwise_lt rs s).imp Nat.ne_of_lt

/-- Witness for C1: creating ("Carol", "789") in a concrete two-row store,
with a concrete create-delete-create trace for id uniqueness. -/
theorem add_contact_valid_creates_witness :
    add_contact [("name", JValue.str "Carol"), ("phone", JValue.str "789")]
        sampleStore =
      (⟨201, Contact.to_dict ⟨sampleStore.nextId, .str "Carol", .str "789"⟩⟩,
       ⟨sampleStore.rows ++ [⟨sampleStore.nextId, .str "Carol", .str "789"⟩],
        sampleStore.nextId + 1⟩) ∧
    (∀ x ∈ sampleStore.rows, x.id ≠ sampleStore.nextId) ∧
    (createdIds sampleStore rs0).Pairwise (· ≠ ·) :=
  add_contact_valid_creates sampleStore rs0 "Carol" "789" (by decide) (by decide)
    sampleStore_inv

/-- C3: after N successful creates from the fresh database and no other
mutations, ListAll returns exactly N records; the list of create responses
and the listed records are both exactly `expectedRows 1 inputs`, so each
listed record is the corresponding create call's name and phone together
with the id that create returned. -/
theorem get_contacts_after_creates (inputs : List (String × String))
    (h : ∀ p ∈ inputs, p.1 ≠ "" ∧ p.2 ≠ "") :
    (runCreates inputs Store.init).1 =
      (expectedRows 1 inputs).map (fun c => ⟨201, c.to_dict⟩) ∧
    get_contacts (runCreates inputs Store.init).2 =
      (⟨200, .arr ((expectedRows 1 inputs).map Contact.to_dict)⟩,
       (runCreates inputs Store.init).2) ∧
    (runCreates inputs Store.init).2.rows = expectedRows 1 inputs ∧
    (expectedRows 1 inputs).length = inputs.length := by
  have key := runCreates_spec inputs Store.init h
  rw [key]
  exact ⟨rfl, rfl, rfl, expectedRows_length 1 inputs⟩

/-- Witness for C3: two creates from the fresh database. -/
theorem get_contacts_after_creates_witness :
    (runCreates [("Alice", "123"), ("Bob", "456")] Store.init).1 =
      (expectedRows 1 [("Alice", "123"), ("Bob", "456")]).map
        (fun c => ⟨201, c.to_dict⟩) ∧
    get_contacts (runCreates [("Alice", "123"), ("Bob", "456")] Store.init).2 =
      (⟨200, .arr ((expectedRows 1 [("Alice", "123"), ("Bob", "456")]).map
          Contact.to_dict)⟩,
       (runCreates [("Alice", "123"), ("Bob", "456")] Store.init).2) ∧
    (runCreates [("Alice", "123"), ("Bob", "456")] Store.init).2.rows =
      expectedRows 1 [("Alice", "123"), ("Bob", "456")] ∧
    (expectedRows 1 [("Alice", "123"), ("Bob", "456")]).length =
      [("Alice", "123"), ("Bob", "456")].length :=
  get_contacts_after_creates [("Alice", "123"), ("Bob", "456")] (by decide)

/-- C5: Delete on an absent id returns 404 and leaves the store unchanged;
Delete on a present id returns 204 with an empty body and removes exactly
the record with that id, keeping every other record; a second Delete of
the same id then returns 404 and changes nothing. -/
theorem delete_contact_behavior (s : Store) (cid : Nat) :
    ((∀ c ∈ s.rows, c.id ≠ cid) →
      delete_contact cid s = (⟨404, errBody "Contact not found."⟩, s)) ∧
    (∀ c ∈ s.rows, c.id = cid →
      delete_contact cid s =
        (⟨204, .str ""⟩, ⟨s.rows.filter (fun x => x.id != cid), s.nextId⟩) ∧
      (∀ x, x ∈ (delete_contact cid s).2.rows ↔ (x ∈ s.rows ∧ x.id ≠ cid)) ∧
      delete_contact cid (delete_contact cid s).2 =
        (⟨404, errBody "Contact not found."⟩, (delete_contact cid s).2)) := by
  constructor
  · intro h
    exact delete_contact_none_eq cid s (get?_eq_none_of s cid h)
  · intro c hc hid
    obtain ⟨c', hg⟩ := get?_isSome s cid c hc hid
    have hdel := delete_contact_some_eq cid s c' hg
    refine ⟨hdel, ?_, ?_⟩
    · intro x
      rw [hdel]
      simp [List.mem_filter]
    · rw [hdel]
      have h404 : ∀ x ∈ s.rows.filter (fun x => x.id != cid), x.id ≠ cid := by
        intro x hx
        simpa using (List.mem_filter.mp hx).2
      exact delete_contact_none_eq cid
        ⟨s.rows.filter (fun x => x.id != cid), s.nextId⟩
        (get?_eq_none_of ⟨s.rows.filter (fun x => x.id != cid), s.nextId⟩ cid h404)

/-- Witness for C5: deleting absent id 9 and present id 1 in a concrete
two-row store. -/
theorem delete_contact_behavior_witness :
    delete_contact 9 sampleStore =
      (⟨404, errBody "Contact not found."⟩, sampleStore) ∧
    (delete_contact 1 sampleStore =
      (⟨204, .str ""⟩,
       ⟨sampleStore.rows.filter (fun x => x.id != 1), sampleStore.nextId⟩) ∧
    (∀ x, x ∈ (delete_contact 1 sampleStore).2.rows ↔
      (x ∈ sampleStore.rows ∧ x.id ≠ 1)) ∧
    delete_contact 1 (delete_contact 1 sampleStore).2 =
      (⟨404, errBody "Contact not found."⟩, (delete_contact 1 sampleStore).2)) :=
  ⟨(delete_contact_behavior sampleStore 9).1 (by decide),
   (delete_contact_behavior sampleStore 1).2 ⟨1, .str "Alice", .str "123"⟩
     (List.mem_cons_self _ _) rfl⟩

/-- C6: Update on a present id with non-empty name and phone returns 200
with the updated record, keeps that record's id, overwrites only the
record with that id, keeps every other record, the record count, and the
id counter unchanged. -/
theorem update_contact_existing (s : Store) (cid : Nat) (c : Contact)
    (sn sp : String) (hc : s.get? cid = some c) (hn : sn ≠ "") (hp : sp ≠ "") :
    update_contact cid [("name", JValue.str sn), ("phone", JValue.str sp)] s =
      (⟨200, Contact.to_dict ⟨c.id, .str sn, .str sp⟩⟩,
       ⟨s.rows.map (fun x => if x.id = cid then ⟨c.id, .str sn, .str sp⟩ else x),
        s.nextId⟩) ∧
    c.id = cid ∧
    (∀ x ∈ s.rows, x.id ≠ cid →
      x ∈ (update_contact cid [("name", JValue.str sn), ("phone", JValue.str sp)]
            s).2.rows) ∧
    (⟨c.id, JValue.str sn, JValue.str sp⟩ : Contact) ∈
      (update_contact cid [("name", JValue.str sn), ("phone", JValue.str sp)]
        s).2.rows ∧
    (update_contact cid [("name", JValue.str sn), ("phone", JValue.str sp)]
        s).2.rows.length = s.rows.length ∧
    (update_contact cid [("name", JValue.str sn), ("phone", JValue.str sp)]
        s).2.nextId = s.nextId := by
  have hcond :
      (!truthy (jget [("name", JValue.str sn), ("phone", JValue.str sp)] "name") ||
       !truthy (jget [("name", JValue.str sn), ("phone", JValue.str sp)] "phone"))
        = false := by
    rw [jget_name, jget_phone, truthy_str_of_ne hn, truthy_str_of_ne hp]
    rfl
  have hupd := update_contact_valid_eq cid _ s c hc hcond
  rw [jget_name, jget_phone] at hupd
  obtain ⟨hmem, hid⟩ := get?_some s cid c hc
  refine ⟨hupd, hid, ?_, ?_, ?_, ?_⟩
  · intro x hx hne
    rw [hupd]
    exact List.mem_map.mpr ⟨x, hx, by rw [if_neg hne]⟩
  · rw [hupd]
    exact List.mem_map.mpr ⟨c, hmem, by rw [if_pos hid]⟩
  · rw [hupd]
    simp
  · rw [hupd]

/-- Witness for C6: updating id 2 of a concrete two-row store with
("Bobby", "999"). -/
theorem update_contact_existing_witness :
    update_contact 2 [("name", JValue.str "Bobby"), ("phone", JValue.str "999")]
        sampleStore =
      (⟨200, Contact.to_dict ⟨2, .str "Bobby", .str "999"⟩⟩,
       ⟨sampleStore.rows.map
          (fun x => if x.id = 2 then ⟨2, .str "Bobby", .str "999"⟩ else x),
        sampleStore.nextId⟩) ∧
    (2 : Nat) = 2 ∧
    (∀ x ∈ sampleStore.rows, x.id ≠ 2 →
      x ∈ (update_contact 2
            [("name", JValue.str "Bobby"), ("phone", JValue.str "999")]
            sampleStore).2.rows) ∧
    (⟨2, JValue.str "Bobby", JValue.str "999"⟩ : Contact) ∈
      (update_contact 2 [("name", JValue.str "Bobby"), ("phone", JValue.str "999")]
        sampleStore).2.rows ∧
    (update_contact 2 [("name", JValue.str "Bobby"), ("phone", JValue.str "999")]
        sampleStore).2.rows.length = sampleStore.rows.length ∧
    (update_contact 2 [("name", JValue.str "Bobby"), ("phone", JValue.str "999")]
        sampleStore).2.nextId = sampleStore.nextId :=
  update_contact_existing sampleStore 2 ⟨2, .str "Bob", .str "456"⟩ "Bobby" "999"
    rfl (by decide) (by decide)

lemma update_rows_map_id (cid : Nat) (body : List (String × JValue))
    (s : Store) :
    (update_contact cid body s).2.rows.map Contact.id =
      s.rows.map Contact.id := by
  cases hg : s.get? cid with
  | none => rw [update_contact_none_eq cid body s hg]
  | some c =>
    by_cases hb : (!truthy (jget body "name") || !truthy (jget body "phone")) = true
    · rw [update_contact_invalid_eq cid body s c hg hb]
    · rw [update_contact_valid_eq cid body s c hg (bool_eq_false hb)]
      have hid : c.id = cid := (get?_some s cid c hg).2
      show (s.rows.map (fun x =>
          if x.id = cid
            then (⟨c.id, jget body "name", jget body "phone"⟩ : Contact)
            else x)).map Contact.id = s.rows.map Contact.id
      rw [List.map_map]
      apply List.map_congr_left
      intro x hx
      show (if x.id = cid
          then (⟨c.id, jget body "name", jget body "phone"⟩ : Contact)
          else x).id = x.id
      by_cases hxc : x.id = cid
      · rw [if_pos hxc]
        show c.id = x.id
        omega
      · rw [if_neg hxc]

lemma add_rows_append (body : List (String × JValue)) (s : Store) :
    ∃ t, (add_contact body s).2.rows = s.rows ++ t := by
  by_cases hb : (!truthy (jget body "name") || !truthy (jget body "phone")) = true
  · exact ⟨[], by rw [add_contact_invalid_eq body s hb]; simp⟩
  · exact ⟨[⟨s.nextId, jget body "name", jget body "phone"⟩],
      by rw [add_contact_valid_eq body s (bool_eq_false hb)]⟩

lemma delete_rows_sublist (cid : Nat) (s : Store) :
    ((delete_contact cid s).2.rows).Sublist s.rows := by
  cases hg : s.get? cid with
  | none => rw [delete_contact_none_eq cid s hg]
  | some c =>
    rw [delete_contact_some_eq cid s c hg]
    exact List.filter_sublist _

/-- C7: every reachable store state satisfies the invariant — pairwise
distinct ids, non-empty (truthy) name and phone on every persisted record,
ids below the counter — every operation preserves the invariant, and no
operation ever changes the id of a persisted record: Update preserves the
id at every position of the table, Create leaves all existing records
intact and only appends, Delete only removes records (the survivors are a
sublist of the old table, unchanged), and ListAll leaves the store
untouched. -/
theorem storeInv_holds :
    (∀ s s' : Store, StoreInv s → Step s s' → StoreInv s') ∧
    (∀ s : Store, Reachable s → StoreInv s) ∧
    (∀ (cid : Nat) (body : List (String × JValue)) (s : Store),
      (update_contact cid body s).2.rows.map Contact.id =
        s.rows.map Contact.id) ∧
    (∀ (body : List (String × JValue)) (s : Store),
      ∃ t, (add_contact body s).2.rows = s.rows ++ t) ∧
    (∀ (cid : Nat) (s : Store),
      ((delete_contact cid s).2.rows).Sublist s.rows) ∧
    (∀ s : Store, (get_contacts s).2 = s) := by
  have hstep : ∀ s s' : Store, StoreInv s → Step s s' → StoreInv s' := by
    intro s s' h hst
    cases hst with
    | create body _ => exact storeInv_add body s h
    | list _ => exact h
    | del cid _ => exact storeInv_delete cid s h
    | upd cid body _ => exact storeInv_update cid body s h
  refine ⟨hstep, ?_, update_rows_map_id, add_rows_append, delete_rows_sublist,
    fun s => rfl⟩
  intro s h
  induction h with
  | init => exact storeInv_init
  | step hr hst ih => exact hstep _ _ ih hst

/-- Witness for C7: the invariant holds at the fresh database, a concrete
create step preserves it, and the id-immutability conjuncts are exercised
at a concrete two-row store. -/
theorem storeInv_holds_witness :
    StoreInv (add_contact [("name", JValue.str "Dan"), ("phone", JValue.str "7")]
      Store.init).2 ∧
    StoreInv Store.init ∧
    (update_contact 1 [("name", JValue.str "Zoe"), ("phone", JValue.str "9")]
        sampleStore).2.rows.map Contact.id = sampleStore.rows.map Contact.id ∧
    (∃ t, (add_contact [("name", JValue.str "Dan"), ("phone", JValue.str "7")]
        sampleStore).2.rows = sampleStore.rows ++ t) ∧
    ((delete_contact 1 sampleStore).2.rows).Sublist sampleStore.rows ∧
    (get_contacts sampleStore).2 = sampleStore :=
  ⟨storeInv_holds.1 Store.init _ storeInv_init
     (Step.create [("name", JValue.str "Dan"), ("phone", JValue.str "7")]
       Store.init),
   storeInv_holds.2.1 Store.init Reachable.init,
   storeInv_holds.2.2.1 1 [("name", JValue.str "Zoe"), ("phone", JValue.str "9")]
     sampleStore,
   storeInv_holds.2.2.2.1 [("name", JValue.str "Dan"), ("phone", JValue.str "7")]
     sampleStore,
   storeInv_holds.2.2.2.2.1 1 sampleStore,
   storeInv_holds.2.2.2.2.2 sampleStore⟩

/-- C8: Create with non-empty name and phone returns a body carrying the
assigned id, and GetByID on that id finds a record with the same name and
phone; GetByID on an id no record has returns none (NotFound). -/
theorem create_get_roundtrip (s : Store) (sn sp : String)
    (hn : sn ≠ "") (hp : sp ≠ "") (hinv : StoreInv s) :
    (add_contact [("name", JValue.str sn), ("phone", JValue.str sp)] s).1.body =
      Contact.to_dict ⟨s.nextId, .str sn, .str sp⟩ ∧
    (add_contact [("name", JValue.str sn), ("phone", JValue.str sp)] s).2.get?
        s.nextId = some ⟨s.nextId, .str sn, .str sp⟩ ∧
    (∀ (t : Store) (cid : Nat), (∀ c ∈ t.rows, c.id ≠ cid) →
      t.get? cid = none) := by
  have hadd := add_contact_valid s sn sp hn hp
  refine ⟨by rw [hadd], ?_, fun t cid h => get?_eq_none_of t cid h⟩
  rw [hadd]
  show Store.get? ⟨s.rows ++ [⟨s.nextId, .str sn, .str sp⟩], s.nextId + 1⟩
    s.nextId = _
  unfold Store.get?
  rw [List.find?_append]
  have hnone : s.rows.find? (fun c => c.id == s.nextId) = none := by
    apply List.find?_eq_none.mpr
    intro c hc
    simpa using Nat.ne_of_lt (hinv.2.2 c hc)
  rw [hnone]
  simp

/-- Witness for C8: create ("Carol", "789") in a concrete two-row store,
look up the returned id 3, and look up the absent id 9. -/
theorem create_get_roundtrip_witness :
    (add_contact [("name", JValue.str "Carol"), ("phone", JValue.str "789")]
        sampleStore).1.body =
      Contact.to_dict ⟨sampleStore.nextId, .str "Carol", .str "789"⟩ ∧
    (add_contact [("name", JValue.str "Carol"), ("phone", JValue.str "789")]
        sampleStore).2.get? sampleStore.nextId =
      some ⟨sampleStore.nextId, .str "Carol", .str "789"⟩ ∧
    sampleStore.get? 9 = none :=
  ⟨(create_get_roundtrip sampleStore "Carol" "789" (by decide) (by decide)
      sampleStore_inv).1,
   (create_get_roundtrip sampleStore "Carol" "789" (by decide) (by decide)
      sampleStore_inv).2.1,
   (create_get_roundtrip sampleStore "Carol" "789" (by decide) (by decide)
      sampleStore_inv).2.2 sampleStore 9 (by decide)⟩

/-- C9: the validation in Create and Update is Python truthiness — any
falsy name or phone value (0, false, null, "", []) is rejected with the
400 error and nothing is written, while any truthy value, string or not
(for example the number 123), passes validation and is persisted. -/
theorem validation_is_truthiness (s : Store) (nv pv : JValue) :
    ((truthy nv = false ∨ truthy pv = false) →
      add_contact [("name", nv), ("phone", pv)] s =
        (⟨400, errBody "Name and phone are required."⟩, s)) ∧
    (truthy nv = true → truthy pv = true →
      add_contact [("name", nv), ("phone", pv)] s =
        (⟨201, Contact.to_dict ⟨s.nextId, nv, pv⟩⟩,
         ⟨s.rows ++ [⟨s.nextId, nv, pv⟩], s.nextId + 1⟩)) ∧
    (∀ (cid : Nat) (c : Contact), s.get? cid = some c →
      (truthy nv = false ∨ truthy pv = false) →
      update_contact cid [("name", nv), ("phone", pv)] s =
        (⟨400, errBody "Name and phone are required."⟩, s)) ∧
    (∀ (cid : Nat) (c : Contact), s.get? cid = some c →
      truthy nv = true → truthy pv = true →
      update_contact cid [("name", nv), ("phone", pv)] s =
        (⟨200, Contact.to_dict ⟨c.id, nv, pv⟩⟩,
         ⟨s.rows.map (fun x => if x.id = cid then ⟨c.id, nv, pv⟩ else x),
          s.nextId⟩)) ∧
    truthy (JValue.num 0) = false ∧ truthy (JValue.bool false) = false ∧
    truthy JValue.null = false ∧ truthy (JValue.str "") = false ∧
    truthy (JValue.arr []) = false ∧ truthy (JValue.num 123) = true := by
  have hctrue : (truthy nv = false ∨ truthy pv = false) →
      (!truthy (jget [("name", nv), ("phone", pv)] "name") ||
       !truthy (jget [("name", nv), ("phone", pv)] "phone")) = true := by
    intro h
    rw [jget_name, jget_phone]
    rcases h with h | h <;> rw [h] <;> simp
  have hcfalse : truthy nv = true → truthy pv = true →
      (!truthy (jget [("name", nv), ("phone", pv)] "name") ||
       !truthy (jget [("name", nv), ("phone", pv)] "phone")) = false := by
    intro h1 h2
    rw [jget_name, jget_phone, h1, h2]
    rfl
  refine ⟨?_, ?_, ?_, ?_, by decide, by decide, by decide, by decide,
    by decide, by decide⟩
  · intro h
    exact add_contact_invalid_eq _ s (hctrue h)
  · intro h1 h2
    have heq := add_contact_valid_eq _ s (hcfalse h1 h2)
    rwa [jget_name, jget_phone] at heq
  · intro cid c hg h
    exact update_contact_invalid_eq cid _ s c hg (hctrue h)
  · intro cid c hg h1 h2
    have heq := update_contact_valid_eq cid _ s c hg (hcfalse h1 h2)
    rwa [jget_name, jget_phone] at heq

/-- Witness for C9: name 0 (falsy, non-string) is rejected with 400; name
and phone 123 (truthy, non-string) are persisted with 201. -/
theorem validation_is_truthiness_witness :
    add_contact [("name", JValue.num 0), ("phone", JValue.str "x")] Store.init =
      (⟨400, errBody "Name and phone are required."⟩, Store.init) ∧
    add_contact [("name", JValue.num 123), ("phone", JValue.num 123)] Store.init =
      (⟨201, Contact.to_dict ⟨Store.init.nextId, .num 123, .num 123⟩⟩,
       ⟨Store.init.rows ++ [⟨Store.init.nextId, .num 123, .num 123⟩],
        Store.init.nextId + 1⟩) :=
  ⟨(validation_is_truthiness Store.init (.num 0) (.str "x")).1
     (Or.inl (by decide)),
   (validation_is_truthiness Store.init (.num 123) (.num 123)).2.1
     (by decide) (by decide)⟩
